import Mathlib

/-!
Shallow embedding of the example CRUD service (`apps/example` of the
`entirius-service-template-django` repository).

Modelling conventions:

* Database state is a `Store`: the list of persisted rows plus the
  autoincrement counter for primary keys.
* Timestamps are abstract clock ticks (`Nat`); each state-changing view
  takes the current tick `now` as a parameter.  `isoformat` renders a tick
  as a string, injectively, standing in for `datetime.isoformat`.
* JSON payload fields are `ReqField`: absent from the payload, present as
  an explicit `null`, or present with a (well-typed) value.  The payload
  universe is restricted to well-typed field values; pydantic rejects
  ill-typed values, which the claims do not exercise.
* Pydantic validation (`ExampleCreateRequest`, `ExampleUpdateRequest` in
  `apps/example/serializers.py`) is embedded as an error-collecting
  validator returning `Except (List PydanticError) _`.
* `int(...)` on the query string is `pyInt`: leading/trailing whitespace is
  stripped, then an optional sign followed by decimal digits (digit-group
  underscores and non-ASCII digits are outside the model's scope).
* Request URIs are `List Char`; `ListRequest.uriBase` is the absolute URI
  up to (excluding) the query string, `uriQuery` the raw query string
  (`[]` when the request had none).  `build_absolute_uri()` re-renders the
  full URI including the query string, as Django does.
* An unhandled Python exception escaping a view (uncaught `ValueError`
  from `int`, Django's rejection of negative queryset slicing) is an
  `Except.error`; `Http404` is caught by the framework and modelled as a
  regular 404 response.
-/

/-- A persisted `ExampleModel` row (`apps/example/models.py`).
`description` is a non-nullable text column (`blank=True`, no `null=True`),
so it is a plain `String`. -/
structure ExampleModel where
  id : Nat
  name : String
  description : String
  is_active : Bool
  created_at : Nat
  updated_at : Nat
deriving DecidableEq

/-- Database state: persisted rows plus the autoincrement primary-key
counter. -/
structure Store where
  records : List ExampleModel
  next_id : Nat
deriving DecidableEq

/-- A field of an incoming JSON payload: missing, explicit `null`, or a
value. -/
inductive ReqField (α : Type) where
  | absent
  | null
  | val (v : α)
deriving DecidableEq

/-- The value carried by a payload field, if any (`null` and absent both
carry none). -/
def ReqField.toOption {α : Type} : ReqField α → Option α
  | .val v => some v
  | _ => none

/-- One entry of a pydantic `ValidationError.errors()` list: the offending
field and a message. -/
structure PydanticError where
  loc : String
  msg : String
deriving DecidableEq

/-- The wire payload of a create request (fields of interest of
`request.data`). -/
structure CreatePayload where
  name : ReqField String
  description : ReqField String
  is_active : ReqField Bool
deriving DecidableEq

/-- `ExampleCreateRequest` after successful validation:
`name: str` (required), `description: Optional[str] = None`,
`is_active: bool = True`. -/
structure ExampleCreateRequest where
  name : String
  description : Option String
  is_active : Bool
deriving DecidableEq

/-- Errors pydantic reports for the create schema's `name` field:
required, must be a string, `min_length=1`, `max_length=255`.
`String.length` counts characters, as Python `len` does. -/
def createNameErrors : ReqField String → List PydanticError
  | .absent => [⟨"name", "Field required"⟩]
  | .null => [⟨"name", "Input should be a valid string"⟩]
  | .val s =>
    if s.length < 1 then [⟨"name", "String should have at least 1 character"⟩]
    else if 255 < s.length then [⟨"name", "String should have at most 255 characters"⟩]
    else []

/-- Errors pydantic reports for the create schema's `is_active` field:
it defaults to `True` when absent but, not being `Optional`, rejects an
explicit `null`. -/
def createIsActiveErrors : ReqField Bool → List PydanticError
  | .null => [⟨"is_active", "Input should be a valid boolean"⟩]
  | _ => []

/-- All validation errors of a create payload (`description` is
unconstrained). -/
def createErrors (p : CreatePayload) : List PydanticError :=
  createNameErrors p.name ++ createIsActiveErrors p.is_active

/-- `ExampleCreateRequest(**request.data)`: either the validated data or
the collected error list. -/
def ExampleCreateRequest.validate (p : CreatePayload) :
    Except (List PydanticError) ExampleCreateRequest :=
  if createErrors p = [] then
    .ok { name := match p.name with | .val s => s | _ => ""
        , description := p.description.toOption
        , is_active := match p.is_active with | .val b => b | _ => true }
  else .error (createErrors p)

/-- The wire payload of an update request. -/
structure UpdatePayload where
  name : ReqField String
  description : ReqField String
  is_active : ReqField Bool
deriving DecidableEq

/-- `ExampleUpdateRequest` after successful validation: every field is
`Optional` with default `None`. -/
structure ExampleUpdateRequest where
  name : Option String
  description : Option String
  is_active : Option Bool
deriving DecidableEq

/-- Errors pydantic reports for the update schema's `name` field: the
field is `Optional` (absent and `null` both validate to `None`), but a
present string must satisfy `min_length=1`, `max_length=255`. -/
def updateNameErrors : ReqField String → List PydanticError
  | .val s =>
    if s.length < 1 then [⟨"name", "String should have at least 1 character"⟩]
    else if 255 < s.length then [⟨"name", "String should have at most 255 characters"⟩]
    else []
  | _ => []

/-- All validation errors of an update payload. -/
def updateErrors (p : UpdatePayload) : List PydanticError :=
  updateNameErrors p.name

/-- `ExampleUpdateRequest(**request.data)`. -/
def ExampleUpdateRequest.validate (p : UpdatePayload) :
    Except (List PydanticError) ExampleUpdateRequest :=
  if updateErrors p = [] then
    .ok { name := p.name.toOption
        , description := p.description.toOption
        , is_active := p.is_active.toOption }
  else .error (updateErrors p)

/-- `datetime.isoformat` on an abstract tick: an injective rendering. -/
def isoformat (t : Nat) : String :=
  toString t

/-- `ExampleResponse`: the serialized item body. -/
structure ExampleResponse where
  id : Nat
  name : String
  description : String
  is_active : Bool
  created_at : String
  updated_at : String
deriving DecidableEq

/-- `ExampleResponse.from_model` (`apps/example/serializers.py`); the
source writes `inst.description or ""`, Python's falsy-coalescing. -/
def ExampleResponse.from_model (inst : ExampleModel) : ExampleResponse :=
  { id := inst.id
  , name := inst.name
  , description := if inst.description = "" then "" else inst.description
  , is_active := inst.is_active
  , created_at := isoformat inst.created_at
  , updated_at := isoformat inst.updated_at }

/-- `ExampleListResponse`: the paginated list body.  Links are URIs
(`List Char`). -/
structure ExampleListResponse where
  count : Nat
  next : Option (List Char)
  previous : Option (List Char)
  results : List ExampleResponse
deriving DecidableEq

/-- The body of an HTTP response a view can produce.
`validation_errors es` stands for the JSON object
`{"validation_errors": es}`; `notFound` for the `Http404` detail. -/
inductive Body where
  | listBody (b : ExampleListResponse)
  | item (r : ExampleResponse)
  | validation_errors (es : List PydanticError)
  | notFound (detail : String)
  | empty
deriving DecidableEq

/-- An HTTP response: status code and body. -/
structure Http where
  status : Nat
  body : Body
deriving DecidableEq

/-- Stable insertion keeping larger `created_at` first. -/
def orderedInsert (r : ExampleModel) : List ExampleModel → List ExampleModel
  | [] => [r]
  | x :: xs => if r.created_at ≤ x.created_at then x :: orderedInsert r xs else r :: x :: xs

/-- `ExampleModel.objects.all()` under `Meta.ordering = ["-created_at"]`:
the rows sorted by `created_at` descending. -/
def objectsAll (recs : List ExampleModel) : List ExampleModel :=
  recs.foldr orderedInsert []

/-- `ExampleModel.objects.get(pk=pk)`: `none` models the
`DoesNotExist` exception. -/
def objectsGet (recs : List ExampleModel) (pk : Nat) : Option ExampleModel :=
  recs.find? (fun r => r.id == pk)

/-- Persisting a mutated inst: the row with this primary key is
overwritten in place. -/
def replaceById (recs : List ExampleModel) (pk : Nat) (x : ExampleModel) :
    List ExampleModel :=
  recs.map (fun r => if r.id = pk then x else r)

/-- `inst.delete()`: the row with this primary key is removed. -/
def deleteById (recs : List ExampleModel) (pk : Nat) : List ExampleModel :=
  recs.filter (fun r => r.id != pk)

/-- A nonempty all-digit string's numeric value. -/
def digitsVal (cs : List Char) : Option Nat :=
  if cs.isEmpty then none
  else if cs.all Char.isDigit then
    some (cs.foldl (fun acc c => 10 * acc + (c.toNat - 48)) 0)
  else none

/-- Sign handling of Python `int(str)`. -/
def pyIntCore : List Char → Option Int
  | '+' :: rest => (digitsVal rest).map Int.ofNat
  | '-' :: rest => (digitsVal rest).map (fun n => -(Int.ofNat n))
  | cs => (digitsVal cs).map Int.ofNat

/-- Python `int(s)`: strip surrounding whitespace, then optional sign and
decimal digits; anything else raises `ValueError` (`none`). -/
def pyInt (s : String) : Option Int :=
  pyIntCore (((s.data.dropWhile Char.isWhitespace).reverse.dropWhile Char.isWhitespace).reverse)

/-- A list request: the raw `page` query parameter (absent or its string
value) and the request URI split at the query string. -/
structure ListRequest where
  page : Option String
  uriBase : List Char
  uriQuery : List Char
deriving DecidableEq

/-- `request.build_absolute_uri()`: the absolute URI of the current
request, query string included. -/
def buildAbsoluteUri (rq : ListRequest) : List Char :=
  if rq.uriQuery = [] then rq.uriBase else rq.uriBase ++ '?' :: rq.uriQuery

/-- `int(request.GET.get("page", 1))` before it is consumed: `none` is the
`ValueError` case. -/
def pageVal (rq : ListRequest) : Option Int :=
  match rq.page with
  | none => some 1
  | some s => pyInt s

/-- The characters `page=<n>`, a query string holding the single `page`
parameter. -/
def singlePageParam (n : Int) : List Char :=
  ("page=" ++ toString n).data

/-- Split a URI at its first `?`: the part before it and the query string
after it. -/
def splitAtQm : List Char → List Char × List Char
  | [] => ([], [])
  | c :: cs => if c = '?' then ([], cs) else ((c :: (splitAtQm cs).1, (splitAtQm cs).2))

/-- The query string of a URI (everything after the first `?`). -/
def queryOf (uri : List Char) : List Char :=
  (splitAtQm uri).2

/-- `ExampleViewSet.list` (`apps/example/views.py`).  `stop` is the
source's `end` (a reserved word here).  An `Except.error` is an unhandled
Python exception escaping the view. -/
def ExampleViewSet.list (st : Store) (rq : ListRequest) : Except String Http :=
  match pageVal rq with
  | none => .error "ValueError: invalid literal for int() with base 10"
  | some page =>
    let page_size : Int := 20
    let start := (page - 1) * page_size
    let stop := start + page_size
    if start < 0 ∨ stop < 0 then
      .error "Negative indexing is not supported."
    else
      let queryset := objectsAll st.records
      let items := (queryset.drop start.toNat).take (stop - start).toNat
      let total_count := queryset.length
      let next_url : Option (List Char) :=
        if stop < (total_count : Int) then
          some (buildAbsoluteUri rq ++ '?' :: singlePageParam (page + 1))
        else none
      let previous_url : Option (List Char) :=
        if 1 < page then
          some (buildAbsoluteUri rq ++ '?' :: singlePageParam (page - 1))
        else none
      .ok ⟨200, .listBody ⟨total_count, next_url, previous_url,
        items.map ExampleResponse.from_model⟩⟩

/-- `ExampleViewSet.create`: validate, then
`ExampleModel.objects.create(...)` with `description or ""`. -/
def ExampleViewSet.create (st : Store) (now : Nat) (payload : CreatePayload) :
    Http × Store :=
  match ExampleCreateRequest.validate payload with
  | .error es => (⟨400, .validation_errors es⟩, st)
  | .ok v =>
    let inst : ExampleModel :=
      { id := st.next_id
      , name := v.name
      , description := match v.description with | some s => if s = "" then "" else s | none => ""
      , is_active := v.is_active
      , created_at := now
      , updated_at := now }
    (⟨201, .item (ExampleResponse.from_model inst)⟩,
     ⟨st.records ++ [inst], st.next_id + 1⟩)

/-- `ExampleViewSet.retrieve`: fetch by pk, 404 on `DoesNotExist`. -/
def ExampleViewSet.retrieve (st : Store) (pk : Nat) : Http :=
  match objectsGet st.records pk with
  | none => ⟨404, .notFound "Example item not found"⟩
  | some inst => ⟨200, .item (ExampleResponse.from_model inst)⟩

/-- `ExampleViewSet.update`: fetch by pk (404 first), then validate (400),
then overwrite only the non-`None` fields, `save()` refreshing
`updated_at` (`auto_now`). -/
def ExampleViewSet.update (st : Store) (now : Nat) (pk : Nat)
    (payload : UpdatePayload) : Http × Store :=
  match objectsGet st.records pk with
  | none => (⟨404, .notFound "Example item not found"⟩, st)
  | some inst =>
    match ExampleUpdateRequest.validate payload with
    | .error es => (⟨400, .validation_errors es⟩, st)
    | .ok v =>
      let i1 := match v.name with | some n => { inst with name := n } | none => inst
      let i2 := match v.description with | some d => { i1 with description := d } | none => i1
      let i3 := match v.is_active with | some b => { i2 with is_active := b } | none => i2
      let i4 := { i3 with updated_at := now }
      (⟨200, .item (ExampleResponse.from_model i4)⟩,
       ⟨replaceById st.records pk i4, st.next_id⟩)

/-- `ExampleViewSet.destroy`: fetch by pk (404), delete, 204. -/
def ExampleViewSet.destroy (st : Store) (pk : Nat) : Http × Store :=
  match objectsGet st.records pk with
  | none => (⟨404, .notFound "Example item not found"⟩, st)
  | some _ => (⟨204, .empty⟩, ⟨deleteById st.records pk, st.next_id⟩)

/-- The `next` link of a list response, when the view returned one. -/
def nextOf : Except String Http → Option (List Char)
  | .ok ⟨_, .listBody b⟩ => b.next
  | _ => none

/-- The `previous` link of a list response, when the view returned one. -/
def prevOf : Except String Http → Option (List Char)
  | .ok ⟨_, .listBody b⟩ => b.previous
  | _ => none

/-- Whether the view returned (rather than raised). -/
def respOk : Except String Http → Bool
  | .ok _ => true
  | .error _ => false

/-! Concrete fixtures used by witnesses and counterexamples. -/

/-- `n` distinct rows with ascending ids and creation times. -/
def mkRecs (n : Nat) : List ExampleModel :=
  (List.range n).map (fun k => ⟨k, "x", "", true, k, k⟩)

/-- An empty database. -/
def emptyStore : Store := ⟨[], 0⟩

/-- A database holding 25 rows. -/
def store25 : Store := ⟨mkRecs 25, 25⟩

/-- A database holding 21 rows (one more than a page). -/
def store21 : Store := ⟨mkRecs 21, 21⟩

/-- A database holding a single row with primary key 1. -/
def store1 : Store := ⟨[⟨1, "a", "d", true, 3, 3⟩], 2⟩

/-- A list request with no `page` parameter and no query string. -/
def rqPlain : ListRequest := ⟨none, "b".data, []⟩

/-! Helper lemmas. -/

theorem length_orderedInsert (r : ExampleModel) (l : List ExampleModel) :
    (orderedInsert r l).length = l.length + 1 := by
  induction l with
  | nil => rfl
  | cons x xs ih =>
    unfold orderedInsert
    split <;> simp [ih]

theorem length_objectsAll (l : List ExampleModel) :
    (objectsAll l).length = l.length := by
  unfold objectsAll
  induction l with
  | nil => rfl
  | cons x xs ih => simp [List.foldr_cons, length_orderedInsert, ih]

theorem objectsGet_id (recs : List ExampleModel) (pk : Nat) (inst : ExampleModel)
    (h : objectsGet recs pk = some inst) : inst.id = pk := by
  have := List.find?_some h
  simpa using this

theorem objectsGet_replaceById (recs : List ExampleModel) (pk : Nat)
    (x : ExampleModel) (hx : x.id = pk) (h : (objectsGet recs pk).isSome) :
    objectsGet (replaceById recs pk x) pk = some x := by
  induction recs with
  | nil => simp [objectsGet] at h
  | cons r rs ih =>
    by_cases hr : r.id = pk
    · simp [objectsGet, replaceById, hr, hx]
    · have h' : (objectsGet rs pk).isSome := by
        simpa [objectsGet, List.find?_cons, hr] using h
      simpa [objectsGet, replaceById, hr] using ih h'

/-- C1: updating an id with no record returns 404 without touching
validation or the store (the result is this fixed 404 for every payload,
valid or not). -/
theorem update_missing_id_404_before_validation (st : Store) (now pk : Nat)
    (p : UpdatePayload) (h : objectsGet st.records pk = none) :
    ExampleViewSet.update st now pk p =
      (⟨404, .notFound "Example item not found"⟩, st) := by
  simp [ExampleViewSet.update, h]

/-- C1 witness: concrete missing id and a payload that would fail
Update-schema validation. -/
theorem update_missing_id_404_before_validation_witness :
    objectsGet emptyStore.records 5 = none ∧
    ExampleViewSet.update emptyStore 7 5 ⟨.val "", .absent, .absent⟩ =
      (⟨404, .notFound "Example item not found"⟩, emptyStore) :=
  ⟨by decide,
   update_missing_id_404_before_validation emptyStore 7 5 ⟨.val "", .absent, .absent⟩
     (by decide)⟩

/-- C9: deleting an id with no record returns 404 and leaves the store
(hence the total count and every stored record) unchanged. -/
theorem destroy_missing_id_404_keeps_store (st : Store) (pk : Nat)
    (h : objectsGet st.records pk = none) :
    ExampleViewSet.destroy st pk =
      (⟨404, .notFound "Example item not found"⟩, st) := by
  simp [ExampleViewSet.destroy, h]

/-- C9 witness: deleting pk 9 from a one-row store with pk 1. -/
theorem destroy_missing_id_404_keeps_store_witness :
    objectsGet store1.records 9 = none ∧
    ExampleViewSet.destroy store1 9 =
      (⟨404, .notFound "Example item not found"⟩, store1) :=
  ⟨by decide, destroy_missing_id_404_keeps_store store1 9 (by decide)⟩

/-- C8: creating with an empty `name` yields a 400 whose
`validation_errors` list contains an error on the `name` field, and the
store is unchanged. -/
theorem create_empty_name_rejected (st : Store) (now : Nat) (p : CreatePayload)
    (h : p.name = .val "") :
    (∃ es, (ExampleViewSet.create st now p).1 = ⟨400, .validation_errors es⟩ ∧
      ∃ e ∈ es, e.loc = "name") ∧
    (ExampleViewSet.create st now p).2 = st := by
  have hne : createErrors p =
      ⟨"name", "String should have at least 1 character"⟩ ::
        createIsActiveErrors p.is_active := by
    simp [createErrors, createNameErrors, h]
  have hval : ExampleCreateRequest.validate p = .error (createErrors p) := by
    unfold ExampleCreateRequest.validate
    rw [if_neg]
    rw [hne]
    simp
  constructor
  · refine ⟨createErrors p, ?_, ⟨"name", "String should have at least 1 character"⟩, ?_, rfl⟩
    · simp [ExampleViewSet.create, hval]
    · rw [hne]; exact List.mem_cons_self _ _
  · simp [ExampleViewSet.create, hval]

/-- C8 witness: the concrete empty-name payload against the empty store. -/
theorem create_empty_name_rejected_witness :
    (CreatePayload.mk (.val "") .absent .absent).name = .val "" ∧
    ((∃ es, (ExampleViewSet.create emptyStore 4 ⟨.val "", .absent, .absent⟩).1 =
        ⟨400, .validation_errors es⟩ ∧ ∃ e ∈ es, e.loc = "name") ∧
      (ExampleViewSet.create emptyStore 4 ⟨.val "", .absent, .absent⟩).2 = emptyStore) :=
  ⟨rfl, create_empty_name_rejected emptyStore 4 ⟨.val "", .absent, .absent⟩ rfl⟩

/-- C6: for a valid create payload, the 201 body reproduces `name`
exactly, `description` (empty string when not supplied), and `is_active`
(true when not supplied). -/
theorem create_roundtrip (st : Store) (now : Nat) (p : CreatePayload)
    (s : String) (hname : p.name = .val s) (h1 : 1 ≤ s.length)
    (h2 : s.length ≤ 255) (hact : p.is_active ≠ .null) :
    ∃ r, (ExampleViewSet.create st now p).1 = ⟨201, .item r⟩ ∧
      r.name = s ∧
      r.description = (match p.description with | .val d => d | _ => "") ∧
      r.is_active = (match p.is_active with | .val b => b | _ => true) := by
  have hname_nil : createNameErrors p.name = [] := by
    rw [hname]
    simp only [createNameErrors]
    rw [if_neg (by omega), if_neg (by omega)]
  have hact_nil : createIsActiveErrors p.is_active = [] := by
    cases hpa : p.is_active with
    | absent => rfl
    | null => exact absurd hpa hact
    | val b => rfl
  have hne : createErrors p = [] := by
    simp [createErrors, hname_nil, hact_nil]
  have hval : ExampleCreateRequest.validate p =
      .ok { name := s
          , description := p.description.toOption
          , is_active := match p.is_active with | .val b => b | _ => true } := by
    unfold ExampleCreateRequest.validate
    rw [if_pos hne, hname]
  refine ⟨ExampleResponse.from_model
    { id := st.next_id
    , name := s
    , description := match p.description.toOption with
        | some d => if d = "" then "" else d
        | none => ""
    , is_active := match p.is_active with | .val b => b | _ => true
    , created_at := now
    , updated_at := now }, ?_, rfl, ?_, rfl⟩
  · simp [ExampleViewSet.create, hval]
  · cases hpd : p.description with
    | absent => rfl
    | null => rfl
    | val d =>
      by_cases hd : d = "" <;>
        simp [ExampleResponse.from_model, ReqField.toOption, hpd, hd]

/-- C6 witness: a payload carrying only a `name`. -/
theorem create_roundtrip_witness :
    (CreatePayload.mk (.val "hi") .absent .absent).name = .val "hi" ∧
    1 ≤ ("hi").length ∧ ("hi").length ≤ 255 ∧
    (CreatePayload.mk (.val "hi") .absent .absent).is_active ≠ .null ∧
    (∃ r, (ExampleViewSet.create emptyStore 3 ⟨.val "hi", .absent, .absent⟩).1 =
        ⟨201, .item r⟩ ∧
      r.name = "hi" ∧
      r.description =
        (match (CreatePayload.mk (.val "hi") .absent .absent).description with
         | .val d => d | _ => "") ∧
      r.is_active =
        (match (CreatePayload.mk (.val "hi") .absent .absent).is_active with
         | .val b => b | _ => true)) :=
  ⟨rfl, by decide, by decide, by decide,
   create_roundtrip emptyStore 3 ⟨.val "hi", .absent, .absent⟩ "hi" rfl
     (by decide) (by decide) (by decide)⟩

/-- C2 counterexample: a `name` consisting only of whitespace passes
Create-schema validation (pydantic applies no trimming), contradicting
the claim that it fails. -/
theorem create_whitespace_name_accepted :
    (" ").data.all Char.isWhitespace = true ∧
    ExampleCreateRequest.validate ⟨.val " ", .absent, .absent⟩ =
      .ok ⟨" ", none, true⟩ :=
  ⟨rfl, rfl⟩

theorem createNameErrors_nil_iff (f : ReqField String) :
    createNameErrors f = [] ↔ ∃ s, f = .val s ∧ 1 ≤ s.length ∧ s.length ≤ 255 := by
  cases f with
  | absent => simp [createNameErrors]
  | null => simp [createNameErrors]
  | val s =>
    simp only [createNameErrors]
    split_ifs with h1 h2 <;> simp <;> omega

theorem createIsActiveErrors_nil_iff (f : ReqField Bool) :
    createIsActiveErrors f = [] ↔ f ≠ .null := by
  cases f <;> simp [createIsActiveErrors]

/-- C2 (amended): Create-schema validation accepts a payload exactly when
`name` is present as a string of untrimmed length 1–255 and `is_active`,
when present, is not null; no trimming is applied. -/
theorem createValidate_ok_iff (p : CreatePayload) :
    (ExampleCreateRequest.validate p).isOk = true ↔
      ((∃ s, p.name = .val s ∧ 1 ≤ s.length ∧ s.length ≤ 255) ∧
        p.is_active ≠ .null) := by
  have herr : createErrors p = [] ↔
      ((∃ s, p.name = .val s ∧ 1 ≤ s.length ∧ s.length ≤ 255) ∧
        p.is_active ≠ .null) := by
    rw [createErrors, List.append_eq_nil, createNameErrors_nil_iff,
      createIsActiveErrors_nil_iff]
  rw [← herr]
  unfold ExampleCreateRequest.validate
  split
  · rename_i hc
    simp [Except.isOk, Except.toBool, hc]
  · rename_i hc
    simp [Except.isOk, Except.toBool, hc]

/-- C10: an update field explicitly set to null behaves exactly like an
omitted field (same response, same store), and `description`, which can
never be set to null, can be set to the empty string. -/
theorem update_null_field_same_as_absent (st : Store) (now pk : Nat)
    (p q : UpdatePayload)
    (hn : p.name.toOption = q.name.toOption)
    (hd : p.description.toOption = q.description.toOption)
    (ha : p.is_active.toOption = q.is_active.toOption) :
    ExampleViewSet.update st now pk p = ExampleViewSet.update st now pk q ∧
    ∀ inst, objectsGet st.records pk = some inst →
      (ExampleViewSet.update st now pk ⟨.absent, .val "", .absent⟩).2.records =
        replaceById st.records pk
          { inst with description := "", updated_at := now } := by
  have hne : updateNameErrors p.name = updateNameErrors q.name := by
    cases hpn : p.name <;> cases hqn : q.name <;>
      simp_all [ReqField.toOption, updateNameErrors]
  have hval : ExampleUpdateRequest.validate p = ExampleUpdateRequest.validate q := by
    unfold ExampleUpdateRequest.validate updateErrors
    rw [hne, hn, hd, ha]
  constructor
  · unfold ExampleViewSet.update
    cases objectsGet st.records pk <;> simp [hval]
  · intro inst hinst
    simp [ExampleViewSet.update, hinst, ExampleUpdateRequest.validate,
      updateErrors, updateNameErrors, ReqField.toOption]

/-- C10 witness: the all-null payload acts like the all-absent payload on
a one-row store. -/
theorem update_null_field_same_as_absent_witness :
    (UpdatePayload.mk .null .null .null).name.toOption =
      (UpdatePayload.mk .absent .absent .absent).name.toOption ∧
    (UpdatePayload.mk .null .null .null).description.toOption =
      (UpdatePayload.mk .absent .absent .absent).description.toOption ∧
    (UpdatePayload.mk .null .null .null).is_active.toOption =
      (UpdatePayload.mk .absent .absent .absent).is_active.toOption ∧
    ExampleViewSet.update store1 9 1 ⟨.null, .null, .null⟩ =
      ExampleViewSet.update store1 9 1 ⟨.absent, .absent, .absent⟩ :=
  ⟨rfl, rfl, rfl,
   (update_null_field_same_as_absent store1 9 1 ⟨.null, .null, .null⟩
     ⟨.absent, .absent, .absent⟩ rfl rfl rfl).1⟩

theorem list_unfold (st : Store) (rq : ListRequest) (i : Int)
    (hp : pageVal rq = some i) (hi : 1 ≤ i) :
    ExampleViewSet.list st rq = .ok ⟨200, .listBody
      ⟨(objectsAll st.records).length,
       (if ((i - 1) * 20 + 20 : Int) < ((objectsAll st.records).length : Int) then
          some (buildAbsoluteUri rq ++ '?' :: singlePageParam (i + 1))
        else none),
       (if (1 : Int) < i then
          some (buildAbsoluteUri rq ++ '?' :: singlePageParam (i - 1))
        else none),
       (((objectsAll st.records).drop ((i - 1) * 20).toNat).take 20).map
         ExampleResponse.from_model⟩⟩ := by
  have hc : ¬(((i - 1) * 20 : Int) < 0 ∨ ((i - 1) * 20 + 20 : Int) < 0) := by
    omega
  have hts : ((i - 1) * 20 + 20 - (i - 1) * 20 : Int) = 20 := by omega
  unfold ExampleViewSet.list
  rw [hp]
  simp only [hts, if_neg hc]
  rfl

/-- C3 counterexample: a non-numeric `page` makes the List view raise an
uncaught `ValueError` instead of returning 200. -/
theorem list_nonnumeric_page_raises :
    ExampleViewSet.list emptyStore ⟨some "abc", "b".data, []⟩ =
      .error "ValueError: invalid literal for int() with base 10" := by
  rfl

/-- C3 (amended): List returns 200 with a well-formed body for every
store and every request whose `page` parameter is absent or parses to an
integer at least 1; non-numeric, zero, or negative values raise instead. -/
theorem list_ok_for_valid_page (st : Store) (rq : ListRequest) (i : Int)
    (hp : pageVal rq = some i) (hi : 1 ≤ i) :
    ∃ b, ExampleViewSet.list st rq = .ok ⟨200, .listBody b⟩ ∧
      b.count = st.records.length ∧ b.results.length ≤ 20 := by
  refine ⟨_, list_unfold st rq i hp hi, length_objectsAll st.records, ?_⟩
  simp only [List.length_map, List.length_take]
  exact Nat.min_le_left _ _

/-- C3 witness: page 3 of a one-row store. -/
theorem list_ok_for_valid_page_witness :
    pageVal ⟨some "3", "b".data, []⟩ = some 3 ∧ (1 : Int) ≤ 3 ∧
    (∃ b, ExampleViewSet.list store1 ⟨some "3", "b".data, []⟩ =
        .ok ⟨200, .listBody b⟩ ∧
      b.count = store1.records.length ∧ b.results.length ≤ 20) :=
  ⟨by decide, by decide,
   list_ok_for_valid_page store1 ⟨some "3", "b".data, []⟩ 3 (by decide) (by decide)⟩

/-- C4: with 25 stored records, page 1 lists 20 items with a `next` link
and no `previous`, page 2 lists the remaining 5 with a `previous` link
and no `next`, and both report `count = 25`. -/
theorem pagination_boundary_25 (st : Store) (rq1 rq2 : ListRequest)
    (hlen : st.records.length = 25)
    (h1 : rq1.page = some "1") (h2 : rq2.page = some "2") :
    ∃ b1 b2,
      ExampleViewSet.list st rq1 = .ok ⟨200, .listBody b1⟩ ∧
      ExampleViewSet.list st rq2 = .ok ⟨200, .listBody b2⟩ ∧
      b1.results.length = 20 ∧ b1.next.isSome = true ∧ b1.previous = none ∧
      b1.count = 25 ∧
      b2.results.length = 5 ∧ b2.next = none ∧ b2.previous.isSome = true ∧
      b2.count = 25 := by
  have hq : (objectsAll st.records).length = 25 := by
    rw [length_objectsAll, hlen]
  have hp1 : pageVal rq1 = some 1 := by
    unfold pageVal
    rw [h1]
    rfl
  have hp2 : pageVal rq2 = some 2 := by
    unfold pageVal
    rw [h2]
    rfl
  refine ⟨_, _, list_unfold st rq1 1 hp1 (by norm_num),
    list_unfold st rq2 2 hp2 (by norm_num), ?_, ?_, ?_, ?_, ?_, ?_, ?_, ?_⟩
  · simp [List.length_take, List.length_drop, hq]
  · simp [hq]
  · norm_num
  · exact hq
  · simp [List.length_take, List.length_drop, hq]
  · simp [hq]
  · norm_num
  · exact hq

/-- C4 witness: the 25-row fixture store. -/
theorem pagination_boundary_25_witness :
    store25.records.length = 25 ∧
    (⟨some "1", "b".data, []⟩ : ListRequest).page = some "1" ∧
    (⟨some "2", "b".data, []⟩ : ListRequest).page = some "2" ∧
    (∃ b1 b2,
      ExampleViewSet.list store25 ⟨some "1", "b".data, []⟩ = .ok ⟨200, .listBody b1⟩ ∧
      ExampleViewSet.list store25 ⟨some "2", "b".data, []⟩ = .ok ⟨200, .listBody b2⟩ ∧
      b1.results.length = 20 ∧ b1.next.isSome = true ∧ b1.previous = none ∧
      b1.count = 25 ∧
      b2.results.length = 5 ∧ b2.next = none ∧ b2.previous.isSome = true ∧
      b2.count = 25) :=
  ⟨by decide, rfl, rfl,
   pagination_boundary_25 store25 ⟨some "1", "b".data, []⟩ ⟨some "2", "b".data, []⟩
     (by decide) rfl rfl⟩

theorem splitAtQm_append (xs ys : List Char) (h : '?' ∉ xs) :
    splitAtQm (xs ++ '?' :: ys) = (xs, ys) := by
  induction xs with
  | nil => simp [splitAtQm]
  | cons c cs ih =>
    have hc : ¬ c = '?' := by
      intro hc
      exact h (by simp [hc])
    have h' : '?' ∉ cs := fun hm => h (List.mem_cons_of_mem _ hm)
    simp [splitAtQm, hc, ih h']

/-- C5 counterexample: when the request URI already carries a query
string, the produced link appends a second `?page=...`, so its query
string is not the single `page` parameter for the adjacent page. -/
theorem list_link_inherits_query_string :
    (prevOf (ExampleViewSet.list emptyStore
        ⟨some "2", "b".data, ("page=2").data⟩)).map queryOf =
      some ("page=2?page=1").data ∧
    ("page=2?page=1").data ≠ singlePageParam 1 := by
  constructor
  · rfl
  · decide

/-- C5 (amended): when the request URI carries no query string, every
non-null `next`/`previous` link is the request's absolute URI followed by
a query string that is exactly the single `page` parameter of the
adjacent page; a request already carrying a query string gets that query
string duplicated into the link instead. -/
theorem links_single_page_param (st : Store) (rq : ListRequest) (i : Int)
    (u : List Char) (hp : pageVal rq = some i) (hq : rq.uriQuery = [])
    (hb : '?' ∉ rq.uriBase) :
    (nextOf (ExampleViewSet.list st rq) = some u →
      splitAtQm u = (rq.uriBase, singlePageParam (i + 1))) ∧
    (prevOf (ExampleViewSet.list st rq) = some u →
      splitAtQm u = (rq.uriBase, singlePageParam (i - 1))) := by
  have hbu : buildAbsoluteUri rq = rq.uriBase := by
    unfold buildAbsoluteUri
    rw [if_pos hq]
  by_cases hneg : (((i - 1) * 20 : Int) < 0 ∨ ((i - 1) * 20 + 20 : Int) < 0)
  · have herr : ExampleViewSet.list st rq =
        .error "Negative indexing is not supported." := by
      unfold ExampleViewSet.list
      rw [hp]
      simp only [if_pos hneg]
    rw [herr]
    constructor
    · intro h
      simp [nextOf] at h
    · intro h
      simp [prevOf] at h
  · have hi : 1 ≤ i := by omega
    rw [list_unfold st rq i hp hi]
    constructor
    · intro h
      simp only [nextOf] at h
      split at h
      · injection h with h'
        rw [← h', hbu]
        exact splitAtQm_append _ _ hb
      · cases h
    · intro h
      simp only [prevOf] at h
      split at h
      · injection h with h'
        rw [← h', hbu]
        exact splitAtQm_append _ _ hb
      · cases h

/-- C5 witness: a query-free request for page 1 of a 21-row store; the
`next` link splits as the base URI plus `page=2`. -/
theorem links_single_page_param_witness :
    pageVal rqPlain = some 1 ∧ rqPlain.uriQuery = [] ∧ ('?' ∉ rqPlain.uriBase) ∧
    nextOf (ExampleViewSet.list store21 rqPlain) = some ("b?page=2").data ∧
    splitAtQm ("b?page=2").data = (rqPlain.uriBase, singlePageParam (1 + 1)) := by
  have hnext : nextOf (ExampleViewSet.list store21 rqPlain) =
      some ("b?page=2").data := by decide
  exact ⟨rfl, rfl, by decide, hnext,
    (links_single_page_param store21 rqPlain 1 (("b?page=2").data)
      rfl rfl (by decide)).1 hnext⟩

/-- C7: an update supplying only `name` changes `name`, leaves
`description`, `is_active`, `id` and `created_at` unchanged, and strictly
increases `updated_at` (the clock having advanced past the stored
`updated_at`). -/
theorem update_only_name_frame (st : Store) (now pk : Nat) (p : UpdatePayload)
    (inst : ExampleModel) (s : String)
    (hget : objectsGet st.records pk = some inst)
    (hname : p.name = .val s)
    (hdesc : p.description.toOption = none)
    (hact : p.is_active.toOption = none)
    (h1 : 1 ≤ s.length) (h2 : s.length ≤ 255)
    (hnow : inst.updated_at < now) :
    ∃ r', (ExampleViewSet.update st now pk p).1 =
        ⟨200, .item (ExampleResponse.from_model r')⟩ ∧
      objectsGet (ExampleViewSet.update st now pk p).2.records pk = some r' ∧
      r'.name = s ∧ r'.description = inst.description ∧
      r'.is_active = inst.is_active ∧ r'.id = inst.id ∧
      r'.created_at = inst.created_at ∧ inst.updated_at < r'.updated_at := by
  have herr : updateErrors p = [] := by
    unfold updateErrors
    rw [hname]
    simp only [updateNameErrors]
    rw [if_neg (by omega), if_neg (by omega)]
  have hval : ExampleUpdateRequest.validate p = .ok ⟨some s, none, none⟩ := by
    unfold ExampleUpdateRequest.validate
    rw [if_pos herr, hname, hdesc, hact]
    rfl
  have hid : inst.id = pk := objectsGet_id _ _ _ hget
  refine ⟨{ inst with name := s, updated_at := now },
    ?_, ?_, rfl, rfl, rfl, rfl, rfl, hnow⟩
  · simp [ExampleViewSet.update, hget, hval]
  · have hrep := objectsGet_replaceById st.records pk
      { inst with name := s, updated_at := now } hid (by rw [hget]; rfl)
    simpa [ExampleViewSet.update, hget, hval] using hrep

/-- C7 witness: renaming the single row of the one-row store at a later
tick. -/
theorem update_only_name_frame_witness :
    objectsGet store1.records 1 = some ⟨1, "a", "d", true, 3, 3⟩ ∧
    (UpdatePayload.mk (.val "z") .absent .absent).name = .val "z" ∧
    (UpdatePayload.mk (.val "z") .absent .absent).description.toOption = none ∧
    (UpdatePayload.mk (.val "z") .absent .absent).is_active.toOption = none ∧
    1 ≤ ("z").length ∧ ("z").length ≤ 255 ∧
    (ExampleModel.mk 1 "a" "d" true 3 3).updated_at < 9 ∧
    (∃ r', (ExampleViewSet.update store1 9 1 ⟨.val "z", .absent, .absent⟩).1 =
        ⟨200, .item (ExampleResponse.from_model r')⟩ ∧
      objectsGet (ExampleViewSet.update store1 9 1
          ⟨.val "z", .absent, .absent⟩).2.records 1 = some r' ∧
      r'.name = "z" ∧ r'.description = (ExampleModel.mk 1 "a" "d" true 3 3).description ∧
      r'.is_active = (ExampleModel.mk 1 "a" "d" true 3 3).is_active ∧
      r'.id = (ExampleModel.mk 1 "a" "d" true 3 3).id ∧
      r'.created_at = (ExampleModel.mk 1 "a" "d" true 3 3).created_at ∧
      (ExampleModel.mk 1 "a" "d" true 3 3).updated_at < r'.updated_at) :=
  ⟨by decide, rfl, rfl, rfl, by decide, by decide, by decide,
   update_only_name_frame store1 9 1 ⟨.val "z", .absent, .absent⟩
     ⟨1, "a", "d", true, 3, 3⟩ "z" (by decide) rfl rfl rfl
     (by decide) (by decide) (by decide)⟩
